import Mathlib

/-!
# Julia Garcia portfolio site: `js/script.js`

A shallow embedding of the page script and the properties of its handlers.

Modelling conventions.

* A JavaScript string is the list of its UTF-16 code units (`JSString`).
* The page is a record of the elements the script looks up. Every lookup is
  optional: `none` is the `null` that `querySelector` / `getElementById` return.
  The looked-up elements are pairwise distinct, none of them carries the class
  `error-message`, and only the four form inputs can carry `form-input` /
  `form-textarea`.
* The `.error-message` elements of the document are kept per parent element
  (`errorMessages g` lists the texts of the `.error-message` children of the
  element `g`, in document order); parents of inputs are not nested in each other.
* A handler returns the page it leaves behind together with the uncaught
  exception, if any, that ended it. Mutations made before the exception stay.
* `setTimeout` appends to an explicit queue of pending timers; the `timeout`
  event fires the pending timer with the earliest due time.
-/

namespace Webclase

/-! ## Strings -/

/-- A JavaScript string: its sequence of UTF-16 code units. -/
abbrev JSString := List Nat

/-- Code units of a string literal of the script (all literals are ASCII). -/
def str (s : String) : JSString := s.toList.map Char.toNat

/-- ECMAScript `WhiteSpace` and `LineTerminator` code points: the characters matched
by `\s` in a regular expression and stripped by `String.prototype.trim`. -/
def isWhiteSpace (c : Nat) : Bool :=
  c == 0x09 || c == 0x0A || c == 0x0B || c == 0x0C || c == 0x0D || c == 0x20 ||
  c == 0xA0 || c == 0x1680 || (0x2000 ≤ c && c ≤ 0x200A) || c == 0x2028 ||
  c == 0x2029 || c == 0x202F || c == 0x205F || c == 0x3000 || c == 0xFEFF

/-- The method `String.prototype.trim`. -/
def trim (s : JSString) : JSString :=
  ((s.dropWhile isWhiteSpace).reverse.dropWhile isWhiteSpace).reverse

/-! ## Regular expressions (the fragment used by `emailRegex`) -/

/-- A member of a character class: the escape `\s` or a literal character. -/
inductive ClassItem where
  | space
  | char (c : Nat)

/-- Whether a code unit belongs to a class member. -/
def ClassItem.test : ClassItem → Nat → Bool
  | .space, c => isWhiteSpace c
  | .char d, c => c == d

/-- A pattern atom: a literal character or a negated class `[^...]`. -/
inductive Atom where
  | char (c : Nat)
  | notIn (items : List ClassItem)

/-- Whether an atom matches one code unit (no `u` or `i` flag). -/
def Atom.test : Atom → Nat → Bool
  | .char d, c => c == d
  | .notIn items, c => !(items.any fun i => i.test c)

/-- A pattern term: the assertions `^` and `$`, an atom, or an atom under `+`. -/
inductive Term where
  | bol
  | eol
  | one (a : Atom)
  | plus (a : Atom)

/-- Backtracking match of `a+` followed by the continuation `k`: the greedy
alternative (one more repetition) is tried first. -/
def matchPlus (a : Atom) (k : JSString → Bool) : JSString → Bool
  | [] => false
  | c :: cs => a.test c && (matchPlus a k cs || k cs)

/-- Backtracking match of a sequence of terms at the current position; `atStart`
tells whether the position is index 0 and the string is what is left of the input. -/
def matchTerms : List Term → Bool → JSString → Bool
  | [], _, _ => true
  | .bol :: ts, atStart, s => atStart && matchTerms ts atStart s
  | .eol :: ts, atStart, s => s.isEmpty && matchTerms ts atStart s
  | .one a :: ts, _, s =>
    match s with
    | [] => false
    | c :: cs => a.test c && matchTerms ts false cs
  | .plus a :: ts, _, s => matchPlus a (matchTerms ts false) s

/-- The search loop of `RegExp.prototype.exec` without the `g` and `y` flags: try a
match at index 0, then at each later index. -/
def searchFrom (pattern : List Term) : Bool → JSString → Bool
  | atStart, [] => matchTerms pattern atStart []
  | atStart, c :: cs => matchTerms pattern atStart (c :: cs) || searchFrom pattern false cs

/-- The method `RegExp.prototype.test`. -/
def RegExp.test (pattern : List Term) (s : JSString) : Bool := searchFrom pattern true s

/-- Line 199: the literal `/^[^\s@]+@[^\s@]+\.[^\s@]+$/`. -/
def emailRegex : List Term :=
  [.bol, .plus (.notIn [.space, .char 0x40]), .one (.char 0x40),
   .plus (.notIn [.space, .char 0x40]), .one (.char 0x2E),
   .plus (.notIn [.space, .char 0x40]), .eol]

/-- Lines 198-201: `isValidEmail`. -/
def isValidEmail (email : JSString) : Bool := RegExp.test emailRegex email

/-! ## The page -/

/-- An element's `classList`. -/
structure DOMTokenList where
  tokens : List String
deriving DecidableEq

/-- The method `classList.contains`. -/
def DOMTokenList.contains (l : DOMTokenList) (t : String) : Bool := decide (t ∈ l.tokens)

/-- The method `classList.add`: appends the token unless it is present. -/
def DOMTokenList.add (l : DOMTokenList) (t : String) : DOMTokenList :=
  if t ∈ l.tokens then l else ⟨l.tokens ++ [t]⟩

/-- The method `classList.remove`. -/
def DOMTokenList.remove (l : DOMTokenList) (t : String) : DOMTokenList :=
  ⟨l.tokens.filter fun u => u != t⟩

/-- The method `classList.toggle`: removes the token if present, adds it otherwise. -/
def DOMTokenList.toggle (l : DOMTokenList) (t : String) : DOMTokenList :=
  if t ∈ l.tokens then l.remove t else l.add t

/-- An element, with the properties the script reads or writes. The property
`parentElement` is the identity of the parent (the form group of an input). -/
structure Element where
  classList : DOMTokenList
  textContent : JSString
  value : JSString
  disabled : Bool
  parentElement : Nat
  offsetTop : Int
  offsetHeight : Int
deriving DecidableEq

/-- The four inputs the submit handler looks up by id. -/
inductive InputId where
  | name
  | email
  | subject
  | message
deriving DecidableEq

/-- Result of `document.querySelector(targetId)` for a link target: a `SyntaxError`
for a string that is no selector, `null`, or the element found. -/
inductive Lookup where
  | syntaxError
  | null
  | element (e : Element)

/-- A callback handed to `setTimeout`, with the variable it captures by value. -/
inductive Callback where
  | success (originalButtonText : JSString)
  | clear
deriving DecidableEq

/-- A pending timer. -/
structure Timer where
  due : Nat
  callback : Callback
deriving DecidableEq

/-- The document and the runtime state around it. -/
structure Page where
  menuToggle : Option Element
  navList : Option Element
  header : Option Element
  querySelector : JSString → Lookup
  contactForm : Option Element
  getElementById : InputId → Option Element
  submitButton : Option Element
  formStatus : Option Element
  yearElement : Option Element
  errorMessages : Nat → List JSString
  timers : List Timer
  now : Nat
  alerts : List JSString
  scrollTop : Option Int

/-- The looked-up references whose dereference can throw. -/
inductive Slot where
  | menuToggle
  | navList
  | header
  | nameInput
  | emailInput
  | messageInput
  | submitButton
deriving DecidableEq

/-- An uncaught exception that ends a handler. -/
inductive Fault where
  | nullProperty (e : Slot)
  | nullHref
  | syntaxError
deriving DecidableEq

/-- What a handler leaves behind. -/
structure Outcome where
  page : Page
  fault : Option Fault

/-- An input element replaced by its updated version. -/
def Page.setElement (p : Page) (id : InputId) (e : Element) : Page :=
  { p with getElementById := fun j => if j = id then some e else p.getElementById j }

/-- The `value` of an input, if it exists, replaced (the user edits the field). -/
def Page.setValue (p : Page) (id : InputId) (value : JSString) : Page :=
  match p.getElementById id with
  | some input => p.setElement id { input with value := value }
  | none => p

/-- The `.error-message` children of one parent replaced. -/
def Page.setErrorMessages (p : Page) (g : Nat) (ms : List JSString) : Page :=
  { p with errorMessages := fun h => if h = g then ms else p.errorMessages h }

/-! ## Mobile menu toggle (lines 17-25) -/

/-- Lines 20-25: the click handler of the menu toggle. The listener exists only
when `menuToggle` was found (line 20). -/
def menuToggleClick (p : Page) : Outcome :=
  match p.menuToggle with
  | none => ⟨p, none⟩
  | some menuToggle =>
    match p.navList with
    | none => ⟨p, some (.nullProperty .navList)⟩
    | some navList =>
      ⟨{ p with
          navList := some { navList with
            classList := navList.classList.toggle "nav__list--active" }
          menuToggle := some { menuToggle with
            classList := menuToggle.classList.toggle "menu-toggle--active" } }, none⟩

/-! ## Smooth scrolling (lines 31-59) -/

/-- Lines 43-46: close the mobile menu if it is open. -/
def closeMenu (p : Page) (navList : Element) : Outcome :=
  if navList.classList.contains "nav__list--active" then
    let p := { p with navList := some { navList with
      classList := navList.classList.remove "nav__list--active" } }
    match p.menuToggle with
    | none => ⟨p, some (.nullProperty .menuToggle)⟩
    | some menuToggle =>
      ⟨{ p with menuToggle := some { menuToggle with
          classList := menuToggle.classList.remove "menu-toggle--active" } }, none⟩
  else ⟨p, none⟩

/-- Lines 34-58: the click handler of a `.nav__link` whose `href` attribute is `href`
(`none` when the link has no such attribute). -/
def navLinkClick (p : Page) (href : Option JSString) : Outcome :=
  match href with
  | none => ⟨p, some .nullHref⟩
  | some targetId =>
    if targetId.head? = some 0x23 then
      match p.querySelector targetId with
      | .syntaxError => ⟨p, some .syntaxError⟩
      | .null => ⟨p, none⟩
      | .element targetElement =>
        match p.navList with
        | none => ⟨p, some (.nullProperty .navList)⟩
        | some navList =>
          let closed := closeMenu p navList
          let p := closed.page
          match closed.fault with
          | some f => ⟨p, some f⟩
          | none =>
            match p.header with
            | none => ⟨p, some (.nullProperty .header)⟩
            | some header =>
              let headerHeight := header.offsetHeight
              let targetPosition := targetElement.offsetTop - headerHeight
              ⟨{ p with scrollTop := some targetPosition }, none⟩
    else ⟨p, none⟩

/-! ## Form validation helpers (lines 155-196) -/

/-- Lines 155-170: `showError`. -/
def showError (p : Page) (id : InputId) (message : JSString) : Page :=
  match p.getElementById id with
  | none => p
  | some input =>
    let formGroup := input.parentElement
    let errorElement := (p.errorMessages formGroup).head?
    let p := p.setElement id { input with classList := input.classList.add "error" }
    match errorElement with
    | none => p.setErrorMessages formGroup (p.errorMessages formGroup ++ [message])
    | some _ => p.setErrorMessages formGroup (message :: (p.errorMessages formGroup).tail)

/-- Lines 172-183: `removeError`. -/
def removeError (p : Page) (id : InputId) : Page :=
  match p.getElementById id with
  | none => p
  | some input =>
    let formGroup := input.parentElement
    let errorElement := (p.errorMessages formGroup).head?
    let p := p.setElement id { input with classList := input.classList.remove "error" }
    match errorElement with
    | some _ => p.setErrorMessages formGroup (p.errorMessages formGroup).tail
    | none => p

/-- The selector `.form-input.error, .form-textarea.error` of line 187. -/
def isErrorInput (e : Element) : Bool :=
  (e.classList.contains "form-input" && e.classList.contains "error") ||
  (e.classList.contains "form-textarea" && e.classList.contains "error")

/-- Lines 185-196: `resetFormErrors`. -/
def resetFormErrors (p : Page) : Page :=
  { p with
    errorMessages := fun _ => []
    getElementById := fun id => (p.getElementById id).map fun input =>
      if isErrorInput input then { input with classList := input.classList.remove "error" }
      else input }

/-! ## Contact form submission (lines 65-150) -/

/-- Lines 126 and 129: the thank-you message. -/
def thankYou : JSString := str "Thank you for your message! I will get back to you soon."

/-- Lines 84-90: name validation. -/
def validateName (p : Page) (nameInput : Element) (isValid : Bool) : Page × Bool :=
  if trim nameInput.value = [] then
    (showError p .name (str "Please enter your name"), false)
  else (removeError p .name, isValid)

/-- Lines 92-101: email validation. -/
def validateEmail (p : Page) (emailInput : Element) (isValid : Bool) : Page × Bool :=
  if trim emailInput.value = [] then
    (showError p .email (str "Please enter your email"), false)
  else if !isValidEmail emailInput.value then
    (showError p .email (str "Please enter a valid email address"), false)
  else (removeError p .email, isValid)

/-- Lines 103-109: message validation. -/
def validateMessage (p : Page) (messageInput : Element) (isValid : Bool) : Page × Bool :=
  if trim messageInput.value = [] then
    (showError p .message (str "Please enter your message"), false)
  else (removeError p .message, isValid)

/-- Lines 112-148, synchronous part: show the loading state and schedule the
success callback. -/
def simulateSubmission (p : Page) : Outcome :=
  match p.submitButton with
  | none => ⟨p, some (.nullProperty .submitButton)⟩
  | some submitButton =>
    let originalButtonText := submitButton.textContent
    ⟨{ p with
        submitButton := some { submitButton with
          textContent := str "Sending...", disabled := true }
        timers := p.timers ++ [⟨p.now + 1000, .success originalButtonText⟩] }, none⟩

/-- Lines 78-109: the validation pass, returning the page and `isValid`. -/
def validateForm (p : Page) : Outcome × Bool :=
  let p := resetFormErrors p
  match p.getElementById .name with
  | none => (⟨p, some (.nullProperty .nameInput)⟩, false)
  | some nameInput =>
    let r := validateName p nameInput true
    match r.1.getElementById .email with
    | none => (⟨r.1, some (.nullProperty .emailInput)⟩, false)
    | some emailInput =>
      let r := validateEmail r.1 emailInput r.2
      match r.1.getElementById .message with
      | none => (⟨r.1, some (.nullProperty .messageInput)⟩, false)
      | some messageInput =>
        let r := validateMessage r.1 messageInput r.2
        (⟨r.1, none⟩, r.2)

/-- Lines 67-149: the submit handler of the contact form. The listener exists only
when `contactForm` was found (line 67). -/
def submitHandler (p : Page) : Outcome :=
  match p.contactForm with
  | none => ⟨p, none⟩
  | some _ =>
    let validated := validateForm p
    let p := validated.1.page
    let isValid := validated.2
    match validated.1.fault with
    | some f => ⟨p, some f⟩
    | none => if isValid then simulateSubmission p else ⟨p, none⟩

/-- Modelled from the spec: `contactForm.reset()` of line 133. The markup that fixes
which controls the form owns and their default values is not among the sources;
spec 4.4 step 2 says "Reset all form fields to empty". -/
def resetForm (p : Page) : Page :=
  { p with getElementById := fun id => (p.getElementById id).map fun input =>
      { input with value := [] } }

/-- Lines 140-145: the callback that clears the success message. -/
def clearCallback (p : Page) : Page :=
  match p.formStatus with
  | some formStatus =>
    { p with formStatus := some { formStatus with
        textContent := [], classList := ⟨["form-status"]⟩ } }
  | none => p

/-- Lines 123-147: the callback that reports success. The button it restores is
the one dereferenced when the timer was scheduled. -/
def successCallback (p : Page) (originalButtonText : JSString) : Page :=
  let p : Page :=
    match p.formStatus with
    | some formStatus =>
      { p with formStatus := some { formStatus with
          textContent := thankYou, classList := ⟨["form-status", "success"]⟩ } }
    | none => { p with alerts := p.alerts ++ [thankYou] }
  let p : Page := resetForm p
  let p : Page := { p with submitButton := p.submitButton.map fun submitButton =>
    { submitButton with textContent := originalButtonText, disabled := false } }
  { p with timers := p.timers ++ [⟨p.now + 5000, .clear⟩] }

/-- Run a timer callback. -/
def Callback.run : Callback → Page → Page
  | .success originalButtonText, p => successCallback p originalButtonText
  | .clear, p => clearCallback p

/-! ## Footer year (lines 207-210) and initialisation -/

/-- Lines 12-211: the `DOMContentLoaded` handler, for a clock in the year `year`.
Registering the listeners changes nothing in the page; the footer year is stamped. -/
def init (p : Page) (year : Nat) : Outcome :=
  match p.yearElement with
  | some yearElement =>
    ⟨{ p with yearElement := some { yearElement with textContent := str (toString year) } }, none⟩
  | none => ⟨p, none⟩

/-! ## Event loop -/

/-- The pending timer with the earliest due time (the one scheduled first among
equals), and the timers that stay pending. -/
def popEarliest : List Timer → Option (Timer × List Timer)
  | [] => none
  | t :: ts =>
    match popEarliest ts with
    | none => some (t, [])
    | some (u, rest) => if u.due < t.due then some (u, t :: rest) else some (t, ts)

/-- What can happen to the page after initialisation. -/
inductive Event where
  | toggleClick
  | linkClick (href : Option JSString)
  | input (id : InputId) (value : JSString)
  | submit
  | waitUntil (t : Nat)
  | timeout

/-- One turn of the event loop. A user cannot activate a disabled submit control,
so `submit` dispatches no event while the submit button is disabled (browser
behaviour, not script code). Time passes only up to the next due timer. -/
def step (p : Page) : Event → Page
  | .toggleClick => (menuToggleClick p).page
  | .linkClick href => (navLinkClick p href).page
  | .input id value => p.setValue id value
  | .submit =>
    match p.submitButton with
    | some submitButton => if submitButton.disabled then p else (submitHandler p).page
    | none => (submitHandler p).page
  | .waitUntil t =>
    if p.now ≤ t ∧ ∀ timer ∈ p.timers, t ≤ timer.due then { p with now := t } else p
  | .timeout =>
    match popEarliest p.timers with
    | none => p
    | some (timer, rest) => timer.callback.run { p with timers := rest, now := max p.now timer.due }

/-- A sequence of events, from left to right. -/
def run (p : Page) (events : List Event) : Page := events.foldl step p

/-! ## Observations used in the statements -/

/-- Presence flag `nav__list--active` of the navigation list. -/
def navListActive (p : Page) : Bool :=
  match p.navList with
  | some navList => navList.classList.contains "nav__list--active"
  | none => false

/-- Presence flag `menu-toggle--active` of the toggle button. -/
def menuToggleActive (p : Page) : Bool :=
  match p.menuToggle with
  | some menuToggle => menuToggle.classList.contains "menu-toggle--active"
  | none => false

/-- Presence flag `error` of an input. -/
def hasError (p : Page) (id : InputId) : Bool :=
  match p.getElementById id with
  | some input => input.classList.contains "error"
  | none => false

/-- Current value of an input (empty when the input is missing). -/
def valueOf (p : Page) (id : InputId) : JSString :=
  match p.getElementById id with
  | some input => input.value
  | none => []

/-- A code unit that `[^\s@]` matches. -/
def notSpaceOrAt (c : Nat) : Prop := isWhiteSpace c = false ∧ c ≠ 0x40

/-! ## Definitions used in the proofs -/

/-- Everything but the inputs and the error messages is the same in both pages. -/
def sameOutsideForm (p q : Page) : Prop :=
  q.menuToggle = p.menuToggle ∧ q.navList = p.navList ∧ q.header = p.header ∧
  q.querySelector = p.querySelector ∧ q.contactForm = p.contactForm ∧
  q.submitButton = p.submitButton ∧ q.formStatus = p.formStatus ∧
  q.yearElement = p.yearElement ∧ q.timers = p.timers ∧ q.now = p.now ∧
  q.alerts = p.alerts ∧ q.scrollTop = p.scrollTop

/-- Error messages that the name check leaves in the group of the name input. -/
def nameErrors (v : JSString) : List JSString :=
  if trim v = [] then [str "Please enter your name"] else []

/-- Error messages that the email check leaves in the group of the email input. -/
def emailErrors (v : JSString) : List JSString :=
  if trim v = [] then [str "Please enter your email"]
  else if !isValidEmail v then [str "Please enter a valid email address"] else []

/-- Error messages that the message check leaves in the group of the message input. -/
def messageErrors (v : JSString) : List JSString :=
  if trim v = [] then [str "Please enter your message"] else []

/-- The class list of an input after its check left the messages `ms`. -/
def flagged (input : Element) (ms : List JSString) : Element :=
  { input with classList :=
      if ms.isEmpty then input.classList.remove "error" else input.classList.add "error" }

/-- An input as `resetFormErrors` leaves it. -/
def unflagged (input : Element) : Element :=
  if isErrorInput input then { input with classList := input.classList.remove "error" }
  else input

/-- No parent holds more than one `.error-message` element. -/
def atMostOneMessage (p : Page) : Prop := ∀ g, (p.errorMessages g).length ≤ 1

/-- Text of the status region (empty when there is none). -/
def statusText (p : Page) : JSString :=
  match p.formStatus with
  | some formStatus => formStatus.textContent
  | none => []

/-- An element with the given classes, text and value, in the parent `g`. -/
def sampleElement (classes : List String) (text value : JSString) (g : Nat) : Element :=
  { classList := ⟨classes⟩, textContent := text, value := value, disabled := false,
    parentElement := g, offsetTop := 600, offsetHeight := 80 }

/-- An input of the sample page. -/
def sampleInput : InputId → Element
  | .name => sampleElement ["form-input"] [] (str "A") 1
  | .email => sampleElement ["form-input"] [] (str "a@b.com") 2
  | .subject => sampleElement ["form-input"] [] [] 3
  | .message => sampleElement ["form-textarea"] [] (str "hi") 4

/-- A page with every element the script looks up: menu closed, name "A", email
"a@b.com", message "hi", nothing pending, clock at 0. -/
def samplePage : Page :=
  { menuToggle := some (sampleElement ["menu-toggle"] [] [] 0)
    navList := some (sampleElement ["nav__list"] [] [] 0)
    header := some (sampleElement ["header"] [] [] 0)
    querySelector := fun targetId =>
      if targetId = str "#about" then .element (sampleElement ["about"] [] [] 0) else .null
    contactForm := some (sampleElement ["contact__form"] [] [] 0)
    getElementById := fun id => some (sampleInput id)
    submitButton := some (sampleElement ["btn"] (str "Send Message") [] 5)
    formStatus := some (sampleElement ["form-status"] [] [] 5)
    yearElement := some (sampleElement [] [] [] 0)
    errorMessages := fun _ => []
    timers := []
    now := 0
    alerts := []
    scrollTop := none }

/-- The sample page with its menu open. -/
def openMenuPage : Page :=
  { samplePage with
    menuToggle := some (sampleElement ["menu-toggle", "menu-toggle--active"] [] [] 0)
    navList := some (sampleElement ["nav__list", "nav__list--active"] [] [] 0) }

/-- The sample page without its navigation list. -/
def pageWithoutNavList : Page := { samplePage with navList := none }

/-- The sample page with a blank name, the email " a@b.com", and error annotations
left in the groups of the name and message inputs. -/
def stalePage : Page :=
  { samplePage with
    getElementById := fun id =>
      match id with
      | .name => some (sampleElement ["form-input", "error"] [] (str "  ") 1)
      | .email => some (sampleElement ["form-input"] [] (str " a@b.com") 2)
      | .subject => some (sampleInput .subject)
      | .message => some (sampleElement ["form-textarea", "error"] [] (str "hi") 4)
    errorMessages := fun g =>
      if g = 1 then [str "Please enter your name", str "stale"]
      else if g = 4 then [str "Please enter your message"] else [] }

theorem emailClass_test (c : Nat) :
    (Atom.notIn [.space, .char 0x40]).test c = true ↔ notSpaceOrAt c := by
  simp [Atom.test, ClassItem.test, notSpaceOrAt]

theorem matchPlus_iff (a : Atom) (k : JSString → Bool) (s : JSString) :
    matchPlus a k s = true ↔
      ∃ x y, s = x ++ y ∧ x ≠ [] ∧ (∀ c ∈ x, a.test c = true) ∧ k y = true := by
  induction s with
  | nil => simp [matchPlus]
  | cons c cs ih =>
    simp only [matchPlus, Bool.and_eq_true, Bool.or_eq_true, ih]
    constructor
    · rintro ⟨hc, ⟨x, y, rfl, -, hx, hk⟩ | hk⟩
      · exact ⟨c :: x, y, rfl, by simp, by simpa [hc] using hx, hk⟩
      · exact ⟨[c], cs, rfl, by simp, by simpa using hc, hk⟩
    · rintro ⟨x, y, hxy, hne, hx, hk⟩
      cases x with
      | nil => exact absurd rfl hne
      | cons d x =>
        simp only [List.cons_append, List.cons.injEq] at hxy
        obtain ⟨rfl, rfl⟩ := hxy
        refine ⟨hx c (by simp), ?_⟩
        cases x with
        | nil => right; simpa using hk
        | cons e x =>
          left
          exact ⟨e :: x, y, rfl, by simp, fun c hc => hx c (List.mem_cons_of_mem _ hc), hk⟩

theorem charAtom_test (d c : Nat) : (Atom.char d).test c = true ↔ c = d := by
  simp [Atom.test]

theorem searchFrom_bol_false (ts : List Term) (s : JSString) :
    searchFrom (.bol :: ts) false s = false := by
  induction s with
  | nil => simp [searchFrom, matchTerms]
  | cons c cs ih => simp [searchFrom, matchTerms, ih]

theorem isValidEmail_eq (s : JSString) : isValidEmail s = matchTerms emailRegex true s := by
  cases s with
  | nil => simp [isValidEmail, RegExp.test, searchFrom]
  | cons c cs => simp [isValidEmail, RegExp.test, searchFrom, emailRegex, searchFrom_bol_false]

theorem isValidEmail_iff (s : JSString) :
    isValidEmail s = true ↔
      ∃ a b c, s = a ++ [0x40] ++ b ++ [0x2E] ++ c ∧ a ≠ [] ∧ b ≠ [] ∧ c ≠ [] ∧
        (∀ x ∈ a, notSpaceOrAt x) ∧ (∀ x ∈ b, notSpaceOrAt x) ∧ (∀ x ∈ c, notSpaceOrAt x) := by
  rw [isValidEmail_eq]
  simp only [emailRegex, matchTerms, Bool.true_and, matchPlus_iff, emailClass_test]
  constructor
  · rintro ⟨a, y, rfl, ha, hca, hy⟩
    cases y with
    | nil => simp at hy
    | cons d y =>
      simp only [Bool.and_eq_true, charAtom_test, matchPlus_iff, emailClass_test] at hy
      obtain ⟨rfl, b, z, rfl, hb, hcb, hz⟩ := hy
      cases z with
      | nil => simp at hz
      | cons e z =>
        simp only [Bool.and_eq_true, charAtom_test, matchPlus_iff, emailClass_test] at hz
        obtain ⟨rfl, c, w, rfl, hc, hcc, hw⟩ := hz
        simp only [List.isEmpty_iff, Bool.and_true, decide_eq_true_eq, and_true] at hw
        subst hw
        exact ⟨a, b, c, by simp, ha, hb, hc, hca, hcb, hcc⟩
  · rintro ⟨a, b, c, rfl, ha, hb, hc, hca, hcb, hcc⟩
    refine ⟨a, 0x40 :: (b ++ 0x2E :: c), by simp, ha, hca, ?_⟩
    simp only [Bool.and_eq_true, charAtom_test, matchPlus_iff, emailClass_test, true_and]
    refine ⟨b, 0x2E :: c, rfl, hb, hcb, ?_⟩
    simp only [Bool.and_eq_true, charAtom_test, matchPlus_iff, emailClass_test, true_and]
    exact ⟨c, [], by simp, hc, hcc, by simp⟩

/-! ## Class lists -/

theorem DOMTokenList.contains_add (l : DOMTokenList) (t u : String) :
    (l.add t).contains u = (l.contains u || decide (u = t)) := by
  unfold DOMTokenList.add DOMTokenList.contains
  by_cases h : t ∈ l.tokens
  · by_cases hu : u = t
    · subst hu; simp [h]
    · simp [h, hu]
  · simp [h]

theorem DOMTokenList.contains_remove (l : DOMTokenList) (t u : String) :
    (l.remove t).contains u = (l.contains u && !decide (u = t)) := by
  unfold DOMTokenList.remove DOMTokenList.contains
  by_cases hu : u = t
  · subst hu; simp
  · simp [hu, List.mem_filter]

theorem DOMTokenList.contains_toggle (l : DOMTokenList) (t u : String) :
    (l.toggle t).contains u = if u = t then !l.contains t else l.contains u := by
  unfold DOMTokenList.toggle
  by_cases h : t ∈ l.tokens
  · rw [if_pos h, DOMTokenList.contains_remove]
    by_cases hu : u = t
    · subst hu; simp [DOMTokenList.contains, h]
    · simp [hu]
  · rw [if_neg h, DOMTokenList.contains_add]
    by_cases hu : u = t
    · subst hu; simp [DOMTokenList.contains, h]
    · simp [hu]

/-! ## Frame of the validation pass -/

theorem sameOutsideForm.refl (p : Page) : sameOutsideForm p p := by
  simp [sameOutsideForm]

theorem sameOutsideForm.trans {p q r : Page} (h1 : sameOutsideForm p q)
    (h2 : sameOutsideForm q r) : sameOutsideForm p r := by
  simp only [sameOutsideForm] at *
  simp [h1, h2]

theorem showError_outside (p : Page) (id : InputId) (m : JSString) :
    sameOutsideForm p (showError p id m) := by
  unfold showError
  split
  · exact sameOutsideForm.refl p
  · dsimp only
    split <;> simp [sameOutsideForm, Page.setElement, Page.setErrorMessages]

theorem removeError_outside (p : Page) (id : InputId) :
    sameOutsideForm p (removeError p id) := by
  unfold removeError
  split
  · exact sameOutsideForm.refl p
  · dsimp only
    split <;> simp [sameOutsideForm, Page.setElement, Page.setErrorMessages]

theorem resetFormErrors_outside (p : Page) : sameOutsideForm p (resetFormErrors p) := by
  simp [sameOutsideForm, resetFormErrors]

theorem validateName_outside (p : Page) (e : Element) (b : Bool) :
    sameOutsideForm p (validateName p e b).1 := by
  unfold validateName
  split
  · exact showError_outside _ _ _
  · exact removeError_outside _ _

theorem validateEmail_outside (p : Page) (e : Element) (b : Bool) :
    sameOutsideForm p (validateEmail p e b).1 := by
  unfold validateEmail
  split
  · exact showError_outside _ _ _
  · split
    · exact showError_outside _ _ _
    · exact removeError_outside _ _

theorem validateMessage_outside (p : Page) (e : Element) (b : Bool) :
    sameOutsideForm p (validateMessage p e b).1 := by
  unfold validateMessage
  split
  · exact showError_outside _ _ _
  · exact removeError_outside _ _

theorem validateForm_outside (p : Page) : sameOutsideForm p (validateForm p).1.page := by
  unfold validateForm
  have h0 := resetFormErrors_outside p
  dsimp only
  split
  · exact h0
  · rename_i nameInput _
    have h1 := h0.trans (validateName_outside (resetFormErrors p) nameInput true)
    split
    · exact h1
    · rename_i emailInput _
      have h2 := h1.trans (validateEmail_outside _ emailInput
        (validateName (resetFormErrors p) nameInput true).2)
      split
      · exact h2
      · exact h2.trans (validateMessage_outside _ _ _)

/-! ## The menu -/

theorem simulateSubmission_menu (p : Page) :
    (simulateSubmission p).page.navList = p.navList ∧
    (simulateSubmission p).page.menuToggle = p.menuToggle := by
  unfold simulateSubmission
  split <;> simp

theorem submitHandler_menu (p : Page) :
    (submitHandler p).page.navList = p.navList ∧
    (submitHandler p).page.menuToggle = p.menuToggle := by
  have h := validateForm_outside p
  have hs := simulateSubmission_menu (validateForm p).1.page
  unfold submitHandler
  split
  · simp
  · dsimp only
    split
    · exact ⟨h.2.1, h.1⟩
    · split
      · exact ⟨hs.1.trans h.2.1, hs.2.trans h.1⟩
      · exact ⟨h.2.1, h.1⟩

theorem callback_menu (c : Callback) (p : Page) :
    (c.run p).navList = p.navList ∧ (c.run p).menuToggle = p.menuToggle := by
  cases c with
  | success t =>
    simp only [Callback.run, successCallback, resetForm]
    split <;> simp
  | clear =>
    simp only [Callback.run, clearCallback]
    split <;> simp

theorem setValue_menu (p : Page) (id : InputId) (v : JSString) :
    (p.setValue id v).navList = p.navList ∧ (p.setValue id v).menuToggle = p.menuToggle := by
  unfold Page.setValue
  split <;> simp [Page.setElement]

/-- Events other than clicks on the toggle or on a link leave the menu alone. -/
theorem step_menu (p : Page) (e : Event) (h1 : e ≠ .toggleClick)
    (h2 : ∀ href, e ≠ .linkClick href) :
    (step p e).navList = p.navList ∧ (step p e).menuToggle = p.menuToggle := by
  cases e with
  | toggleClick => exact absurd rfl h1
  | linkClick href => exact absurd rfl (h2 href)
  | input id v => exact setValue_menu p id v
  | submit =>
    simp only [step]
    split
    · split
      · simp
      · exact submitHandler_menu p
    · exact submitHandler_menu p
  | waitUntil t =>
    simp only [step]
    split <;> simp
  | timeout =>
    simp only [step]
    split
    · simp
    · exact callback_menu _ _

theorem menuToggleClick_agree (p : Page) (h : navListActive p = menuToggleActive p) :
    navListActive (menuToggleClick p).page = menuToggleActive (menuToggleClick p).page := by
  unfold menuToggleClick
  split
  · exact h
  · rename_i menuToggle hm
    split
    · exact h
    · rename_i navList hn
      simp [navListActive, menuToggleActive, hm, hn, DOMTokenList.contains_toggle] at h ⊢
      exact h

theorem closeMenu_agree (p : Page) (navList : Element) (hn : p.navList = some navList)
    (h : navListActive p = menuToggleActive p) :
    navListActive (closeMenu p navList).page = menuToggleActive (closeMenu p navList).page := by
  unfold closeMenu
  split
  · rename_i hact
    dsimp only
    split
    · rename_i hm
      simp [navListActive, menuToggleActive, hm, hn, hact] at h
    · simp [navListActive, menuToggleActive, DOMTokenList.contains_remove]
  · exact h

theorem navLinkClick_agree (p : Page) (href : Option JSString)
    (h : navListActive p = menuToggleActive p) :
    navListActive (navLinkClick p href).page = menuToggleActive (navLinkClick p href).page := by
  unfold navLinkClick
  split
  · exact h
  · split
    · split
      · exact h
      · exact h
      · split
        · exact h
        · rename_i navList hn
          have hc := closeMenu_agree p navList hn h
          dsimp only
          split
          · exact hc
          · split
            · exact hc
            · simpa [navListActive, menuToggleActive] using hc
    · exact h

theorem step_agree (p : Page) (e : Event) (h : navListActive p = menuToggleActive p) :
    navListActive (step p e) = menuToggleActive (step p e) := by
  by_cases h1 : e = .toggleClick
  · subst h1; exact menuToggleClick_agree p h
  · by_cases h2 : ∃ href, e = .linkClick href
    · obtain ⟨href, rfl⟩ := h2
      exact navLinkClick_agree p href h
    · have hm := step_menu p e h1 (fun href hh => h2 ⟨href, hh⟩)
      simpa [navListActive, menuToggleActive, hm.1, hm.2] using h

theorem run_agree (events : List Event) (p : Page)
    (h : navListActive p = menuToggleActive p) :
    navListActive (run p events) = menuToggleActive (run p events) := by
  induction events generalizing p with
  | nil => exact h
  | cons e es ih => exact ih (step p e) (step_agree p e h)

theorem closeMenu_open (p : Page) (navList menuToggle : Element)
    (hm : p.menuToggle = some menuToggle)
    (hopen : navList.classList.contains "nav__list--active" = true) :
    navListActive (closeMenu p navList).page = false ∧
    menuToggleActive (closeMenu p navList).page = false := by
  simp [closeMenu, hopen, hm, navListActive, menuToggleActive, DOMTokenList.contains_remove]

theorem navLinkClick_found (p : Page) (targetId : JSString) (targetElement navList : Element)
    (hhash : targetId.head? = some 0x23)
    (htarget : p.querySelector targetId = .element targetElement)
    (hn : p.navList = some navList) :
    navListActive (navLinkClick p (some targetId)).page =
      navListActive (closeMenu p navList).page ∧
    menuToggleActive (navLinkClick p (some targetId)).page =
      menuToggleActive (closeMenu p navList).page := by
  simp only [navLinkClick, hhash, htarget, hn, if_true]
  split
  · exact ⟨rfl, rfl⟩
  · split
    · exact ⟨rfl, rfl⟩
    · exact ⟨rfl, rfl⟩

/-! ## Closed form of the validation pass -/

theorem showError_spec (p : Page) (id : InputId) (input : Element) (m : JSString)
    (h : p.getElementById id = some input) (hlen : atMostOneMessage p) :
    (showError p id m).getElementById =
      (fun j => if j = id then some (flagged input [m]) else p.getElementById j) ∧
    (showError p id m).errorMessages =
      (fun g => if g = input.parentElement then [m] else p.errorMessages g) := by
  have hl := hlen input.parentElement
  unfold showError
  rw [h]
  dsimp only
  cases hg : p.errorMessages input.parentElement with
  | nil => simp [Page.setElement, Page.setErrorMessages, flagged, hg]
  | cons x xs =>
    rw [hg] at hl
    have hxs : xs = [] := by
      cases xs with
      | nil => rfl
      | cons y ys => simp at hl
    simp [Page.setElement, Page.setErrorMessages, flagged, hg, hxs]

theorem removeError_spec (p : Page) (id : InputId) (input : Element)
    (h : p.getElementById id = some input) (hlen : atMostOneMessage p) :
    (removeError p id).getElementById =
      (fun j => if j = id then some (flagged input []) else p.getElementById j) ∧
    (removeError p id).errorMessages =
      (fun g => if g = input.parentElement then [] else p.errorMessages g) := by
  have hl := hlen input.parentElement
  unfold removeError
  rw [h]
  dsimp only
  cases hg : p.errorMessages input.parentElement with
  | nil =>
    simp only [Page.setElement, Page.setErrorMessages, flagged, hg, List.head?_nil]
    refine ⟨by simp, ?_⟩
    funext g
    by_cases hgg : g = input.parentElement
    · simp [hgg, hg]
    · simp [hgg]
  | cons x xs =>
    rw [hg] at hl
    have hxs : xs = [] := by
      cases xs with
      | nil => rfl
      | cons y ys => simp at hl
    simp [Page.setElement, Page.setErrorMessages, flagged, hg, hxs]


theorem atMostOneMessage_update (p q : Page) (g0 : Nat) (ms : List JSString)
    (hlen : atMostOneMessage p) (hms : ms.length ≤ 1)
    (hq : q.errorMessages = fun g => if g = g0 then ms else p.errorMessages g) :
    atMostOneMessage q := by
  intro g
  rw [hq]
  dsimp only
  split
  · exact hms
  · exact hlen g

theorem nameErrors_length (v : JSString) : (nameErrors v).length ≤ 1 := by
  unfold nameErrors; split <;> simp

theorem emailErrors_length (v : JSString) : (emailErrors v).length ≤ 1 := by
  unfold emailErrors; split
  · simp
  · split <;> simp

theorem validateName_spec (p : Page) (input : Element) (b : Bool)
    (h : p.getElementById .name = some input) (hlen : atMostOneMessage p) :
    (validateName p input b).2 = (b && (nameErrors input.value).isEmpty) ∧
    (validateName p input b).1.getElementById =
      (fun j => if j = .name then some (flagged input (nameErrors input.value))
        else p.getElementById j) ∧
    (validateName p input b).1.errorMessages =
      (fun g => if g = input.parentElement then nameErrors input.value
        else p.errorMessages g) := by
  unfold validateName nameErrors
  split
  · exact ⟨by simp, showError_spec p .name input _ h hlen⟩
  · exact ⟨by simp, removeError_spec p .name input h hlen⟩

theorem validateEmail_spec (p : Page) (input : Element) (b : Bool)
    (h : p.getElementById .email = some input) (hlen : atMostOneMessage p) :
    (validateEmail p input b).2 = (b && (emailErrors input.value).isEmpty) ∧
    (validateEmail p input b).1.getElementById =
      (fun j => if j = .email then some (flagged input (emailErrors input.value))
        else p.getElementById j) ∧
    (validateEmail p input b).1.errorMessages =
      (fun g => if g = input.parentElement then emailErrors input.value
        else p.errorMessages g) := by
  unfold validateEmail emailErrors
  split
  · exact ⟨by simp, showError_spec p .email input _ h hlen⟩
  · split
    · exact ⟨by simp, showError_spec p .email input _ h hlen⟩
    · exact ⟨by simp, removeError_spec p .email input h hlen⟩

theorem validateMessage_spec (p : Page) (input : Element) (b : Bool)
    (h : p.getElementById .message = some input) (hlen : atMostOneMessage p) :
    (validateMessage p input b).2 = (b && (messageErrors input.value).isEmpty) ∧
    (validateMessage p input b).1.getElementById =
      (fun j => if j = .message then some (flagged input (messageErrors input.value))
        else p.getElementById j) ∧
    (validateMessage p input b).1.errorMessages =
      (fun g => if g = input.parentElement then messageErrors input.value
        else p.errorMessages g) := by
  unfold validateMessage messageErrors
  split
  · exact ⟨by simp, showError_spec p .message input _ h hlen⟩
  · exact ⟨by simp, removeError_spec p .message input h hlen⟩

/-- Closed form of the validation pass when the three validated inputs exist. -/
theorem validateForm_spec (p : Page) (nameInput emailInput messageInput : Element)
    (hn : p.getElementById .name = some nameInput)
    (he : p.getElementById .email = some emailInput)
    (hm : p.getElementById .message = some messageInput) :
    (validateForm p).1.fault = none ∧
    (validateForm p).2 = ((nameErrors nameInput.value).isEmpty &&
      (emailErrors emailInput.value).isEmpty && (messageErrors messageInput.value).isEmpty) ∧
    (validateForm p).1.page.getElementById =
      (fun j =>
        if j = .message then
          some (flagged (unflagged messageInput) (messageErrors messageInput.value))
        else if j = .email then
          some (flagged (unflagged emailInput) (emailErrors emailInput.value))
        else if j = .name then
          some (flagged (unflagged nameInput) (nameErrors nameInput.value))
        else (p.getElementById j).map unflagged) ∧
    (validateForm p).1.page.errorMessages =
      (fun g =>
        if g = messageInput.parentElement then messageErrors messageInput.value
        else if g = emailInput.parentElement then emailErrors emailInput.value
        else if g = nameInput.parentElement then nameErrors nameInput.value
        else []) := by
  have hu : ∀ e : Element, (unflagged e).value = e.value ∧
      (unflagged e).parentElement = e.parentElement := by
    intro e; unfold unflagged; split <;> simp
  have h0g : (resetFormErrors p).getElementById = fun j => (p.getElementById j).map unflagged := by
    funext j; simp only [resetFormErrors]; rfl
  have h0e : (resetFormErrors p).errorMessages = fun _ => [] := rfl
  have h0l : atMostOneMessage (resetFormErrors p) := by intro g; simp [h0e]
  have h0n : (resetFormErrors p).getElementById .name = some (unflagged nameInput) := by
    rw [h0g]; simp [hn]
  obtain ⟨a1, a2, a3⟩ := validateName_spec _ _ true h0n h0l
  have h1l := atMostOneMessage_update _ _ _ _ h0l (nameErrors_length _) a3
  have h1e : (validateName (resetFormErrors p) (unflagged nameInput) true).1.getElementById
      .email = some (unflagged emailInput) := by
    rw [a2, h0g]; simp [he]
  obtain ⟨b1, b2, b3⟩ := validateEmail_spec _ _
    (validateName (resetFormErrors p) (unflagged nameInput) true).2 h1e h1l
  have h2l := atMostOneMessage_update _ _ _ _ h1l (emailErrors_length _) b3
  have h2m : (validateEmail (validateName (resetFormErrors p) (unflagged nameInput) true).1
      (unflagged emailInput)
      (validateName (resetFormErrors p) (unflagged nameInput) true).2).1.getElementById
      .message = some (unflagged messageInput) := by
    rw [b2, a2, h0g]; simp [hm]
  obtain ⟨c1, c2, c3⟩ := validateMessage_spec _ _
    (validateEmail (validateName (resetFormErrors p) (unflagged nameInput) true).1
      (unflagged emailInput)
      (validateName (resetFormErrors p) (unflagged nameInput) true).2).2 h2m h2l
  unfold validateForm
  simp only [h0n, h1e, h2m]
  refine ⟨trivial, ?_, ?_, ?_⟩
  · rw [c1, b1, a1]; simp [(hu _).1]
  · rw [c2, b2, a2, h0g]; simp only [(hu _).1]
  · rw [c3, b3, a3, h0e]; simp only [(hu _).1, (hu _).2]


/-! ## The submit handler -/

theorem flagged_contains_error (input : Element) (ms : List JSString) :
    (flagged input ms).classList.contains "error" = !ms.isEmpty := by
  unfold flagged
  cases ms with
  | nil => simp [DOMTokenList.contains_remove]
  | cons m ms => simp [DOMTokenList.contains_add]

theorem nameErrors_isEmpty (v : JSString) :
    (nameErrors v).isEmpty = true ↔ trim v ≠ [] := by
  unfold nameErrors; split <;> simp [*]

theorem emailErrors_isEmpty (v : JSString) :
    (emailErrors v).isEmpty = true ↔ trim v ≠ [] ∧ isValidEmail v = true := by
  unfold emailErrors
  split
  · simp [*]
  · split <;> simp_all

theorem messageErrors_isEmpty (v : JSString) :
    (messageErrors v).isEmpty = true ↔ trim v ≠ [] := by
  unfold messageErrors; split <;> simp [*]

/-- The submit handler, once the form and the three validated inputs are known to exist. -/
theorem submitHandler_eq (p : Page) (form nameInput emailInput messageInput : Element)
    (hf : p.contactForm = some form)
    (hn : p.getElementById .name = some nameInput)
    (he : p.getElementById .email = some emailInput)
    (hm : p.getElementById .message = some messageInput) :
    submitHandler p =
      if (validateForm p).2 = true then simulateSubmission (validateForm p).1.page
      else ⟨(validateForm p).1.page, none⟩ := by
  have h := (validateForm_spec p nameInput emailInput messageInput hn he hm).1
  unfold submitHandler
  simp only [hf, h]

theorem simulateSubmission_form (p : Page) :
    (simulateSubmission p).page.getElementById = p.getElementById ∧
    (simulateSubmission p).page.errorMessages = p.errorMessages := by
  unfold simulateSubmission
  split <;> simp

/-- The submit handler leaves the inputs and the error messages as the validation
pass left them. -/
theorem submitHandler_form (p : Page) (form nameInput emailInput messageInput : Element)
    (hf : p.contactForm = some form)
    (hn : p.getElementById .name = some nameInput)
    (he : p.getElementById .email = some emailInput)
    (hm : p.getElementById .message = some messageInput) :
    (submitHandler p).page.getElementById = (validateForm p).1.page.getElementById ∧
    (submitHandler p).page.errorMessages = (validateForm p).1.page.errorMessages := by
  rw [submitHandler_eq p form nameInput emailInput messageInput hf hn he hm]
  split
  · exact simulateSubmission_form _
  · exact ⟨rfl, rfl⟩

/-- Timers, submit button and exception of the submit handler when the form is invalid. -/
theorem submitHandler_rejected (p : Page) (form nameInput emailInput messageInput : Element)
    (hf : p.contactForm = some form)
    (hn : p.getElementById .name = some nameInput)
    (he : p.getElementById .email = some emailInput)
    (hm : p.getElementById .message = some messageInput)
    (hv : (validateForm p).2 = false) :
    (submitHandler p).fault = none ∧ (submitHandler p).page.timers = p.timers ∧
    (submitHandler p).page.submitButton = p.submitButton := by
  have ho := validateForm_outside p
  rw [submitHandler_eq p form nameInput emailInput messageInput hf hn he hm]
  simp only [hv, Bool.false_eq_true, if_false]
  exact ⟨trivial, ho.2.2.2.2.2.2.2.2.1, ho.2.2.2.2.2.1⟩

/-- Timers, submit button and exception of the submit handler when the form is valid. -/
theorem submitHandler_accepted (p : Page)
    (form nameInput emailInput messageInput submitButton : Element)
    (hf : p.contactForm = some form)
    (hn : p.getElementById .name = some nameInput)
    (he : p.getElementById .email = some emailInput)
    (hm : p.getElementById .message = some messageInput)
    (hb : p.submitButton = some submitButton)
    (hv : (validateForm p).2 = true) :
    (submitHandler p).fault = none ∧
    (submitHandler p).page.timers =
      p.timers ++ [⟨p.now + 1000, .success submitButton.textContent⟩] ∧
    (submitHandler p).page.submitButton =
      some { submitButton with textContent := str "Sending...", disabled := true } := by
  have ho := validateForm_outside p
  have hb2 : (validateForm p).1.page.submitButton = some submitButton := by
    rw [ho.2.2.2.2.2.1, hb]
  rw [submitHandler_eq p form nameInput emailInput messageInput hf hn he hm]
  simp only [hv, if_true, simulateSubmission, hb2]
  rw [ho.2.2.2.2.2.2.2.2.1, ho.2.2.2.2.2.2.2.2.2.1]
  simp

theorem validateForm_valid_iff (p : Page) (nameInput emailInput messageInput : Element)
    (hn : p.getElementById .name = some nameInput)
    (he : p.getElementById .email = some emailInput)
    (hm : p.getElementById .message = some messageInput) :
    (validateForm p).2 = true ↔
      trim nameInput.value ≠ [] ∧
      (trim emailInput.value ≠ [] ∧ isValidEmail emailInput.value = true) ∧
      trim messageInput.value ≠ [] := by
  rw [(validateForm_spec p nameInput emailInput messageInput hn he hm).2.1]
  simp only [Bool.and_eq_true, nameErrors_isEmpty, emailErrors_isEmpty, messageErrors_isEmpty]
  tauto

theorem setValue_subject (p : Page) (v : JSString) :
    (∀ id, id ≠ .subject → (p.setValue .subject v).getElementById id = p.getElementById id) ∧
    sameOutsideForm p (p.setValue .subject v) := by
  unfold Page.setValue
  split
  · refine ⟨fun id hid => ?_, ?_⟩
    · simp [Page.setElement, hid]
    · simp [sameOutsideForm, Page.setElement]
  · exact ⟨fun _ _ => rfl, sameOutsideForm.refl p⟩

/-! ## Annotations -/

/-- Error flags and error messages after the submit handler, in closed form. -/
theorem submitHandler_annotations (p : Page) (form nameInput emailInput messageInput : Element)
    (hf : p.contactForm = some form)
    (hn : p.getElementById .name = some nameInput)
    (he : p.getElementById .email = some emailInput)
    (hm : p.getElementById .message = some messageInput) :
    hasError (submitHandler p).page .name = !(nameErrors nameInput.value).isEmpty ∧
    hasError (submitHandler p).page .email = !(emailErrors emailInput.value).isEmpty ∧
    hasError (submitHandler p).page .message = !(messageErrors messageInput.value).isEmpty ∧
    (submitHandler p).page.errorMessages =
      (fun g =>
        if g = messageInput.parentElement then messageErrors messageInput.value
        else if g = emailInput.parentElement then emailErrors emailInput.value
        else if g = nameInput.parentElement then nameErrors nameInput.value
        else []) := by
  obtain ⟨-, -, s3, s4⟩ := validateForm_spec p nameInput emailInput messageInput hn he hm
  obtain ⟨u1, u2⟩ := submitHandler_form p form nameInput emailInput messageInput hf hn he hm
  unfold hasError
  rw [u1, u2, s3, s4]
  simp [flagged_contains_error]

theorem simulateSubmission_rest (p : Page) :
    (simulateSubmission p).page.formStatus = p.formStatus ∧
    (simulateSubmission p).page.now = p.now ∧
    (simulateSubmission p).page.contactForm = p.contactForm ∧
    (simulateSubmission p).page.alerts = p.alerts := by
  unfold simulateSubmission
  split <;> exact ⟨rfl, rfl, rfl, rfl⟩

/-- The submit handler leaves status region, clock, form and alerts alone. -/
theorem submitHandler_rest (p : Page) :
    (submitHandler p).page.formStatus = p.formStatus ∧
    (submitHandler p).page.now = p.now ∧
    (submitHandler p).page.contactForm = p.contactForm ∧
    (submitHandler p).page.alerts = p.alerts := by
  have ho := validateForm_outside p
  have hv : (validateForm p).1.page.formStatus = p.formStatus ∧
      (validateForm p).1.page.now = p.now ∧
      (validateForm p).1.page.contactForm = p.contactForm ∧
      (validateForm p).1.page.alerts = p.alerts :=
    ⟨ho.2.2.2.2.2.2.1, ho.2.2.2.2.2.2.2.2.2.1, ho.2.2.2.2.1, ho.2.2.2.2.2.2.2.2.2.2.1⟩
  have hs := simulateSubmission_rest (validateForm p).1.page
  unfold submitHandler
  split
  · exact ⟨rfl, rfl, rfl, rfl⟩
  · dsimp only
    split
    · exact hv
    · split
      · exact ⟨hs.1.trans hv.1, hs.2.1.trans hv.2.1, hs.2.2.1.trans hv.2.2.1,
          hs.2.2.2.trans hv.2.2.2⟩
      · exact hv

theorem step_timeout_eq (p : Page) (t : Timer) (rest : List Timer)
    (h : popEarliest p.timers = some (t, rest)) :
    step p .timeout = t.callback.run { p with timers := rest, now := max p.now t.due } := by
  simp only [step, h]

/-- The success callback when the status region exists. -/
theorem successCallback_fields (p : Page) (l : JSString) (formStatus : Element)
    (hs : p.formStatus = some formStatus) :
    (successCallback p l).formStatus =
      some { formStatus with
        textContent := thankYou, classList := ⟨["form-status", "success"]⟩ } ∧
    (∀ id, valueOf (successCallback p l) id = []) ∧
    (successCallback p l).submitButton =
      p.submitButton.map (fun b => { b with textContent := l, disabled := false }) ∧
    (successCallback p l).timers = p.timers ++ [⟨p.now + 5000, .clear⟩] ∧
    (successCallback p l).now = p.now ∧
    (successCallback p l).contactForm = p.contactForm ∧
    (successCallback p l).alerts = p.alerts := by
  simp only [successCallback, resetForm, hs]
  refine ⟨by trivial, ?_, by trivial, by trivial, by trivial, by trivial, by trivial⟩
  intro id
  simp only [valueOf]
  cases p.getElementById id <;> rfl

/-- The clear callback when the status region exists. -/
theorem clearCallback_fields (p : Page) (formStatus : Element)
    (hs : p.formStatus = some formStatus) :
    (clearCallback p).formStatus =
      some { formStatus with textContent := [], classList := ⟨["form-status"]⟩ } ∧
    (clearCallback p).timers = p.timers ∧ (clearCallback p).now = p.now ∧
    (clearCallback p).submitButton = p.submitButton ∧
    (clearCallback p).getElementById = p.getElementById ∧
    (clearCallback p).contactForm = p.contactForm := by
  simp only [clearCallback, hs]
  exact ⟨by trivial, by trivial, by trivial, by trivial, by trivial, by trivial⟩

/-! ## Resubmission -/

theorem successCallback_inputs (p : Page) (l : JSString) (id : InputId) :
    (successCallback p l).getElementById id =
      (p.getElementById id).map fun input => { input with value := [] } := by
  simp only [successCallback, resetForm]
  split <;> rfl

/-- A valid submit followed by the firing of its success timer, when that timer is
the earliest pending one. -/
theorem submit_then_success (p : Page)
    (form nameInput emailInput messageInput submitButton formStatus : Element)
    (hf : p.contactForm = some form)
    (hn : p.getElementById .name = some nameInput)
    (he : p.getElementById .email = some emailInput)
    (hm : p.getElementById .message = some messageInput)
    (hb : p.submitButton = some submitButton)
    (hs : p.formStatus = some formStatus)
    (henabled : submitButton.disabled = false)
    (hname : trim nameInput.value ≠ [])
    (hemail : trim emailInput.value ≠ [] ∧ isValidEmail emailInput.value = true)
    (hmessage : trim messageInput.value ≠ [])
    (hpop : popEarliest (p.timers ++ [⟨p.now + 1000, .success submitButton.textContent⟩]) =
      some (⟨p.now + 1000, .success submitButton.textContent⟩, p.timers)) :
    ((step p .submit).now = p.now ∧
      (step p .submit).timers =
        p.timers ++ [⟨p.now + 1000, .success submitButton.textContent⟩]) ∧
    (run p [.submit, .timeout]).now = p.now + 1000 ∧
    (run p [.submit, .timeout]).formStatus =
      some { formStatus with
        textContent := thankYou, classList := ⟨["form-status", "success"]⟩ } ∧
    (run p [.submit, .timeout]).submitButton = some submitButton ∧
    (run p [.submit, .timeout]).timers = p.timers ++ [⟨p.now + 1000 + 5000, .clear⟩] ∧
    (run p [.submit, .timeout]).contactForm = some form ∧
    (∃ n, (run p [.submit, .timeout]).getElementById .name = some n) ∧
    (∃ e, (run p [.submit, .timeout]).getElementById .email = some e) ∧
    (∃ m, (run p [.submit, .timeout]).getElementById .message = some m) := by
  have hv : (validateForm p).2 = true :=
    (validateForm_valid_iff p nameInput emailInput messageInput hn he hm).2
      ⟨hname, hemail, hmessage⟩
  obtain ⟨-, a2, a3⟩ := submitHandler_accepted p form nameInput emailInput messageInput
    submitButton hf hn he hm hb hv
  obtain ⟨r1, r2, r3, r4⟩ := submitHandler_rest p
  obtain ⟨g1, -⟩ := submitHandler_form p form nameInput emailInput messageInput hf hn he hm
  obtain ⟨-, -, g2, -⟩ := validateForm_spec p nameInput emailInput messageInput hn he hm
  have e1 : step p .submit = (submitHandler p).page := by
    simp [step, hb, henabled]
  have hpop1 : popEarliest (step p .submit).timers =
      some (⟨p.now + 1000, .success submitButton.textContent⟩, p.timers) := by
    rw [e1, a2]; exact hpop
  have e2 : run p [.submit, .timeout] =
      successCallback { step p .submit with timers := p.timers, now := p.now + 1000 }
        submitButton.textContent := by
    simp only [run, List.foldl]
    rw [step_timeout_eq _ _ _ hpop1, e1, r2]
    simp [Callback.run]
  obtain ⟨b1, -, b3, b4, b5, b6, -⟩ := successCallback_fields
    { step p .submit with timers := p.timers, now := p.now + 1000 } submitButton.textContent
    formStatus (by rw [e1]; exact r1.trans hs)
  have b8 := successCallback_inputs
    { step p .submit with timers := p.timers, now := p.now + 1000 } submitButton.textContent
  rw [← e2] at b1 b3 b4 b5 b6 b8
  refine ⟨⟨by rw [e1, r2], by rw [e1, a2]⟩, b5, b1, ?_, b4, ?_, ?_, ?_, ?_⟩
  · rw [b3]
    dsimp only
    rw [e1, a3]
    simp only [Option.map_some']
    cases submitButton
    simp only at henabled
    simp [henabled]
  · rw [b6]; dsimp only; rw [e1, r3, hf]
  · rw [b8]; dsimp only; rw [e1, g1, g2]; exact ⟨_, rfl⟩
  · rw [b8]; dsimp only; rw [e1, g1, g2]; exact ⟨_, rfl⟩
  · rw [b8]; dsimp only; rw [e1, g1, g2]; exact ⟨_, rfl⟩

/-- The user fills in the three validated fields. -/
theorem fill_in (q : Page) (n e m : Element) (vn ve vm : JSString)
    (hn : q.getElementById .name = some n) (he : q.getElementById .email = some e)
    (hm : q.getElementById .message = some m) :
    (run q [.input .name vn, .input .email ve, .input .message vm]).getElementById .name =
      some { n with value := vn } ∧
    (run q [.input .name vn, .input .email ve, .input .message vm]).getElementById .email =
      some { e with value := ve } ∧
    (run q [.input .name vn, .input .email ve, .input .message vm]).getElementById .message =
      some { m with value := vm } ∧
    sameOutsideForm q (run q [.input .name vn, .input .email ve, .input .message vm]) := by
  simp [run, step, Page.setValue, Page.setElement, hn, he, hm, sameOutsideForm]

theorem statusText_eq (q : Page) (e : Element) (h : q.formStatus = some e) :
    statusText q = e.textContent := by
  simp [statusText, h]

/-- A valid submit made while the clear timer of an earlier submission is pending
and due between 1000 ms and 6000 ms from now: the new message appears 1000 ms from
now and the old clear timer empties the status region when it falls due. -/
theorem resubmit_before_clear (q : Page)
    (form nameInput emailInput messageInput submitButton formStatus : Element)
    (hf : q.contactForm = some form)
    (hn : q.getElementById .name = some nameInput)
    (he : q.getElementById .email = some emailInput)
    (hm : q.getElementById .message = some messageInput)
    (hb : q.submitButton = some submitButton)
    (hs : q.formStatus = some formStatus)
    (henabled : submitButton.disabled = false)
    (hname : trim nameInput.value ≠ [])
    (hemail : trim emailInput.value ≠ [] ∧ isValidEmail emailInput.value = true)
    (hmessage : trim messageInput.value ≠ [])
    (d : Nat) (htimers : q.timers = [⟨d, .clear⟩])
    (hd1 : q.now + 1000 < d) (hd2 : d ≤ q.now + 1000 + 5000) :
    (step q .submit).now = q.now ∧
    (step q .submit).timers = [⟨d, .clear⟩, ⟨q.now + 1000, .success submitButton.textContent⟩] ∧
    (run q [.submit, .timeout]).now = q.now + 1000 ∧
    statusText (run q [.submit, .timeout]) = thankYou ∧
    (run q [.submit, .timeout, .timeout]).now = d ∧
    statusText (run q [.submit, .timeout, .timeout]) = [] ∧
    (run q [.submit, .timeout, .timeout]).timers = [⟨q.now + 1000 + 5000, .clear⟩] := by
  obtain ⟨⟨c0, c1⟩, c2, c3, -, c5, -, -, -, -⟩ :=
    submit_then_success q form nameInput emailInput messageInput submitButton formStatus
      hf hn he hm hb hs henabled hname hemail hmessage
      (by
        rw [htimers]
        simp only [List.singleton_append, popEarliest]
        rw [if_pos]
        exact hd1)
  rw [htimers] at c1 c5
  have hpop : popEarliest (run q [.submit, .timeout]).timers =
      some (⟨d, .clear⟩, [⟨q.now + 1000 + 5000, .clear⟩]) := by
    rw [c5]
    simp only [List.singleton_append, popEarliest]
    rw [if_neg]
    · rfl
    · exact Nat.not_lt.2 hd2
  have e9 : run q [.submit, .timeout, .timeout] =
      clearCallback { run q [.submit, .timeout] with
        timers := [⟨q.now + 1000 + 5000, .clear⟩]
        now := max (run q [.submit, .timeout]).now d } :=
    step_timeout_eq _ _ _ hpop
  obtain ⟨d1, d2, d3, -, -, -⟩ := clearCallback_fields
    { run q [.submit, .timeout] with
      timers := [⟨q.now + 1000 + 5000, .clear⟩]
      now := max (run q [.submit, .timeout]).now d } _ c3
  rw [← e9] at d1 d2 d3
  refine ⟨c0, c1, c2, statusText_eq _ _ c3, ?_, statusText_eq _ _ d1, d2⟩
  rw [d3]
  show max (run q [.submit, .timeout]).now d = d
  rw [c2]
  omega

/-! ## Exceptions -/

/-- Which exception the validation pass ends with, in terms of the page it starts from. -/
theorem validateForm_fault (p : Page) :
    (validateForm p).1.fault =
      if p.getElementById .name = none then some (.nullProperty .nameInput)
      else if p.getElementById .email = none then some (.nullProperty .emailInput)
      else if p.getElementById .message = none then some (.nullProperty .messageInput)
      else none := by
  have h0g : (resetFormErrors p).getElementById = fun j => (p.getElementById j).map unflagged := by
    funext j; simp only [resetFormErrors]; rfl
  have h0l : atMostOneMessage (resetFormErrors p) := by
    intro g; simp [resetFormErrors]
  cases hn : p.getElementById .name with
  | none =>
    unfold validateForm
    simp [h0g, hn]
  | some nameInput =>
    have h0n : (resetFormErrors p).getElementById .name = some (unflagged nameInput) := by
      rw [h0g]; simp [hn]
    obtain ⟨-, a2, a3⟩ := validateName_spec _ _ true h0n h0l
    have h1l := atMostOneMessage_update _ _ _ _ h0l (nameErrors_length _) a3
    cases he : p.getElementById .email with
    | none =>
      have h1e : (validateName (resetFormErrors p) (unflagged nameInput) true).1.getElementById
          .email = none := by
        rw [a2, h0g]; simp [he]
      unfold validateForm
      simp [h0n, h1e]
    | some emailInput =>
      have h1e : (validateName (resetFormErrors p) (unflagged nameInput) true).1.getElementById
          .email = some (unflagged emailInput) := by
        rw [a2, h0g]; simp [he]
      obtain ⟨-, b2, -⟩ := validateEmail_spec _ _
        (validateName (resetFormErrors p) (unflagged nameInput) true).2 h1e h1l
      cases hm : p.getElementById .message with
      | none =>
        have h2m : (validateEmail (validateName (resetFormErrors p) (unflagged nameInput) true).1
            (unflagged emailInput)
            (validateName (resetFormErrors p) (unflagged nameInput) true).2).1.getElementById
            .message = none := by
          rw [b2, a2, h0g]; simp [hm]
        unfold validateForm
        simp [h0n, h1e, h2m]
      | some messageInput =>
        rw [(validateForm_spec p nameInput emailInput messageInput hn he hm).1]
        simp

/-- Which exception the submit handler ends with, in terms of the page it starts from. -/
theorem submitHandler_fault (p : Page) :
    (submitHandler p).fault =
      if p.contactForm = none then none
      else if p.getElementById .name = none then some (.nullProperty .nameInput)
      else if p.getElementById .email = none then some (.nullProperty .emailInput)
      else if p.getElementById .message = none then some (.nullProperty .messageInput)
      else if (validateForm p).2 = true ∧ p.submitButton = none then
        some (.nullProperty .submitButton)
      else none := by
  have hvf := validateForm_fault p
  have ho := validateForm_outside p
  unfold submitHandler
  cases hf : p.contactForm with
  | none => simp
  | some form =>
    simp only [reduceCtorEq, if_false]
    cases hfault : (validateForm p).1.fault with
    | some f =>
      rw [hfault] at hvf
      simp only
      by_cases h1 : p.getElementById .name = none
      · rw [if_pos h1] at hvf ⊢
        exact hvf
      · by_cases h2 : p.getElementById .email = none
        · rw [if_neg h1, if_pos h2] at hvf ⊢
          exact hvf
        · by_cases h3 : p.getElementById .message = none
          · rw [if_neg h1, if_neg h2, if_pos h3] at hvf ⊢
            exact hvf
          · rw [if_neg h1, if_neg h2, if_neg h3] at hvf
            cases hvf
    | none =>
      rw [hfault] at hvf
      simp only
      have h1 : ¬ p.getElementById .name = none := by
        intro h; rw [if_pos h] at hvf; cases hvf
      have h2 : ¬ p.getElementById .email = none := by
        intro h; rw [if_neg h1, if_pos h] at hvf; cases hvf
      have h3 : ¬ p.getElementById .message = none := by
        intro h; rw [if_neg h1, if_neg h2, if_pos h] at hvf; cases hvf
      rw [if_neg h1, if_neg h2, if_neg h3]
      cases hv : (validateForm p).2 with
      | false => simp
      | true =>
        simp only [if_true, true_and]
        unfold simulateSubmission
        rw [ho.2.2.2.2.2.1]
        cases p.submitButton <;> simp

/-- Which exception a link click ends with. -/
theorem navLinkClick_fault (p : Page) (href : Option JSString) :
    (navLinkClick p href).fault =
      match href with
      | none => some .nullHref
      | some targetId =>
        if targetId.head? = some 0x23 then
          match p.querySelector targetId with
          | .syntaxError => some .syntaxError
          | .null => none
          | .element _ =>
            match p.navList with
            | none => some (.nullProperty .navList)
            | some navList =>
              if navList.classList.contains "nav__list--active" = true ∧ p.menuToggle = none then
                some (.nullProperty .menuToggle)
              else if p.header = none then some (.nullProperty .header)
              else none
        else none := by
  unfold navLinkClick
  cases href with
  | none => rfl
  | some targetId =>
    simp only
    split
    · cases hq : p.querySelector targetId with
      | syntaxError => rfl
      | null => rfl
      | element targetElement =>
        simp only
        cases hn : p.navList with
        | none => rfl
        | some navList =>
          simp only
          unfold closeMenu
          cases hact : navList.classList.contains "nav__list--active" with
          | false =>
            simp only [Bool.false_eq_true, if_false, false_and]
            cases hh : p.header <;> simp
          | true =>
            simp only [if_true, true_and]
            cases hm : p.menuToggle with
            | none => simp
            | some menuToggle =>
              simp only [reduceCtorEq, if_false]
              cases hh : p.header <;> simp
    · rfl

/-! ## The handler without the browser -/

/-- The handler has no guard of its own: were a submit event dispatched on the
sample page while its first submission is sending, a second success timer would
be scheduled and it would capture "Sending..." as the label to restore. -/
theorem submitHandler_unguarded :
    (submitHandler (step samplePage .submit)).page.timers =
      [⟨1000, .success (str "Send Message")⟩, ⟨1000, .success (str "Sending...")⟩] := by
  decide

/-! ## Claims -/

/-- C1: `isValidEmail s` is true exactly when `s` is `a ++ "@" ++ b ++ "." ++ c` with
`a`, `b`, `c` non-empty and free of whitespace and of `@`; "user@example.com" is
accepted, and "user@", "user.com" and the empty string are rejected. -/
theorem isValidEmail_characterisation :
    (∀ s : JSString, isValidEmail s = true ↔
      ∃ a b c : JSString, s = a ++ str "@" ++ b ++ str "." ++ c ∧
        a ≠ [] ∧ b ≠ [] ∧ c ≠ [] ∧
        (∀ x ∈ a, isWhiteSpace x = false ∧ x ≠ 0x40) ∧
        (∀ x ∈ b, isWhiteSpace x = false ∧ x ≠ 0x40) ∧
        (∀ x ∈ c, isWhiteSpace x = false ∧ x ≠ 0x40)) ∧
    isValidEmail (str "user@example.com") = true ∧
    isValidEmail (str "user@") = false ∧
    isValidEmail (str "user.com") = false ∧
    isValidEmail (str "") = false := by
  refine ⟨fun s => ?_, by decide, by decide, by decide, by decide⟩
  have h1 : str "@" = [0x40] := by decide
  have h2 : str "." = [0x2E] := by decide
  rw [h1, h2]
  exact isValidEmail_iff s

/-- C4: with the toggle button and the navigation list in the page, one click on the
toggle flips both active flags without an exception, and a second click restores
both flags (every class of either element is present after two clicks exactly when
it was present before). -/
theorem menuToggle_click_involution (p : Page) (menuToggle navList : Element)
    (hm : p.menuToggle = some menuToggle) (hn : p.navList = some navList) :
    (menuToggleClick p).fault = none ∧
    navListActive (step p .toggleClick) = !navListActive p ∧
    menuToggleActive (step p .toggleClick) = !menuToggleActive p ∧
    navListActive (run p [.toggleClick, .toggleClick]) = navListActive p ∧
    menuToggleActive (run p [.toggleClick, .toggleClick]) = menuToggleActive p ∧
    (∃ navList2 menuToggle2 : Element,
      (run p [.toggleClick, .toggleClick]).navList = some navList2 ∧
      (run p [.toggleClick, .toggleClick]).menuToggle = some menuToggle2 ∧
      ∀ t, navList2.classList.contains t = navList.classList.contains t ∧
        menuToggle2.classList.contains t = menuToggle.classList.contains t) := by
  simp [run, step, menuToggleClick, hm, hn, navListActive, menuToggleActive,
    DOMTokenList.contains_toggle]
  intro t
  constructor <;> split_ifs <;> simp_all


/-- C5: if the two active flags agree initially, they agree after every finite
sequence of events (toggle clicks, link clicks with any `href` and any target, and
all other events); and with the menu open, a click on a link whose `href` starts
with `#` and whose target exists leaves both flags inactive, as one toggle click does. -/
theorem menu_flags_stay_in_agreement (p : Page)
    (h : navListActive p = menuToggleActive p) :
    (∀ events : List Event,
      navListActive (run p events) = menuToggleActive (run p events)) ∧
    (∀ (targetId : JSString) (targetElement : Element),
      navListActive p = true → targetId.head? = some 0x23 →
      p.querySelector targetId = .element targetElement →
      navListActive (step p (.linkClick (some targetId))) = false ∧
      menuToggleActive (step p (.linkClick (some targetId))) = false ∧
      navListActive (step p (.linkClick (some targetId))) =
        navListActive (step p .toggleClick) ∧
      menuToggleActive (step p (.linkClick (some targetId))) =
        menuToggleActive (step p .toggleClick)) := by
  refine ⟨fun events => run_agree events p h, ?_⟩
  intro targetId targetElement hopen hhash htarget
  have hopen2 : menuToggleActive p = true := h ▸ hopen
  have hopen3 := hopen
  have hopen4 := hopen2
  unfold navListActive at hopen
  unfold menuToggleActive at hopen2
  split at hopen
  · rename_i navList hn
    split at hopen2
    · rename_i menuToggle hm
      have hf := navLinkClick_found p targetId targetElement navList hhash htarget hn
      have hc := closeMenu_open p navList menuToggle hm hopen
      have ht1 : navListActive (menuToggleClick p).page = false := by
        simp [menuToggleClick, hm, hn, navListActive, DOMTokenList.contains_toggle, hopen]
      have ht2 : menuToggleActive (menuToggleClick p).page = false := by
        simp [menuToggleClick, hm, hn, menuToggleActive, DOMTokenList.contains_toggle, hopen2]
      simp only [step]
      rw [hf.1, hf.2, hc.1, hc.2, ht1, ht2]
      exact ⟨rfl, rfl, rfl, rfl⟩
    · simp at hopen2
  · simp at hopen


/-- C2: with the form, its three validated inputs and its submit button in the page,
the submit handler finds the form valid, and schedules the success timer, exactly
when the trimmed name is non-empty, the trimmed email is non-empty and the email
matches the pattern, and the trimmed message is non-empty; otherwise no timer is
scheduled. Changing only the subject value changes neither the validity, nor the
exception, nor the timers, nor any error flag, nor any error message. -/
theorem submit_valid_iff_three_checks (p : Page)
    (form nameInput emailInput messageInput submitButton : Element)
    (hf : p.contactForm = some form)
    (hn : p.getElementById .name = some nameInput)
    (he : p.getElementById .email = some emailInput)
    (hm : p.getElementById .message = some messageInput)
    (hb : p.submitButton = some submitButton) :
    ((validateForm p).2 = true ↔
      trim nameInput.value ≠ [] ∧
      (trim emailInput.value ≠ [] ∧ isValidEmail emailInput.value = true) ∧
      trim messageInput.value ≠ []) ∧
    ((submitHandler p).page.timers =
        p.timers ++ [⟨p.now + 1000, .success submitButton.textContent⟩] ↔
      (validateForm p).2 = true) ∧
    ((submitHandler p).page.timers = p.timers ↔ (validateForm p).2 = false) ∧
    (∀ subject : JSString,
      (validateForm (p.setValue .subject subject)).2 = (validateForm p).2 ∧
      (submitHandler (p.setValue .subject subject)).fault = (submitHandler p).fault ∧
      (submitHandler (p.setValue .subject subject)).page.timers =
        (submitHandler p).page.timers ∧
      (submitHandler (p.setValue .subject subject)).page.errorMessages =
        (submitHandler p).page.errorMessages ∧
      ∀ id, hasError (submitHandler (p.setValue .subject subject)).page id =
        hasError (submitHandler p).page id) := by
  have hiff := validateForm_valid_iff p nameInput emailInput messageInput hn he hm
  refine ⟨hiff, ?_, ?_, ?_⟩
  · cases hv : (validateForm p).2 with
    | true =>
      simp [(submitHandler_accepted p form nameInput emailInput messageInput submitButton
        hf hn he hm hb hv).2.1]
    | false =>
      simp [(submitHandler_rejected p form nameInput emailInput messageInput
        hf hn he hm hv).2.1]
  · cases hv : (validateForm p).2 with
    | true =>
      simp [(submitHandler_accepted p form nameInput emailInput messageInput submitButton
        hf hn he hm hb hv).2.1]
    | false =>
      simp [(submitHandler_rejected p form nameInput emailInput messageInput
        hf hn he hm hv).2.1]
  · intro subject
    obtain ⟨hid, ho⟩ := setValue_subject p subject
    have hf2 : (p.setValue .subject subject).contactForm = some form := by
      rw [ho.2.2.2.2.1, hf]
    have hn2 := (hid .name (by decide)).trans hn
    have he2 := (hid .email (by decide)).trans he
    have hm2 := (hid .message (by decide)).trans hm
    have hb2 : (p.setValue .subject subject).submitButton = some submitButton := by
      rw [ho.2.2.2.2.2.1, hb]
    obtain ⟨-, s2, s3, s4⟩ := validateForm_spec p nameInput emailInput messageInput hn he hm
    obtain ⟨-, t2, t3, t4⟩ := validateForm_spec _ nameInput emailInput messageInput hn2 he2 hm2
    obtain ⟨u1, u2⟩ := submitHandler_form p form nameInput emailInput messageInput hf hn he hm
    obtain ⟨w1, w2⟩ := submitHandler_form _ form nameInput emailInput messageInput
      hf2 hn2 he2 hm2
    have hvv : (validateForm (p.setValue .subject subject)).2 = (validateForm p).2 := by
      rw [s2, t2]
    refine ⟨hvv, ?_, ?_, ?_, ?_⟩
    · cases hv : (validateForm p).2 with
      | true =>
        rw [(submitHandler_accepted p form nameInput emailInput messageInput submitButton
          hf hn he hm hb hv).1,
          (submitHandler_accepted _ form nameInput emailInput messageInput submitButton
          hf2 hn2 he2 hm2 hb2 (hvv.trans hv)).1]
      | false =>
        rw [(submitHandler_rejected p form nameInput emailInput messageInput
          hf hn he hm hv).1,
          (submitHandler_rejected _ form nameInput emailInput messageInput
          hf2 hn2 he2 hm2 (hvv.trans hv)).1]
    · cases hv : (validateForm p).2 with
      | true =>
        rw [(submitHandler_accepted p form nameInput emailInput messageInput submitButton
          hf hn he hm hb hv).2.1,
          (submitHandler_accepted _ form nameInput emailInput messageInput submitButton
          hf2 hn2 he2 hm2 hb2 (hvv.trans hv)).2.1, ho.2.2.2.2.2.2.2.2.1,
          ho.2.2.2.2.2.2.2.2.2.1]
      | false =>
        rw [(submitHandler_rejected p form nameInput emailInput messageInput
          hf hn he hm hv).2.1,
          (submitHandler_rejected _ form nameInput emailInput messageInput
          hf2 hn2 he2 hm2 (hvv.trans hv)).2.1, ho.2.2.2.2.2.2.2.2.1]
    · rw [u2, w2, s4, t4]
    · intro id
      unfold hasError
      rw [u1, w1, s3, t3]
      cases id with
      | name => rfl
      | email => rfl
      | message => rfl
      | subject =>
        simp only [reduceCtorEq, if_false]
        unfold Page.setValue
        cases hin : p.getElementById .subject with
        | none => simp [hin]
        | some input =>
          simp only [Page.setElement, if_true, Option.map_some']
          unfold unflagged isErrorInput
          dsimp only
          split <;> rfl

/-- C3: with the form in the page and the name, email and message inputs in three
different form groups, whatever error flags and error messages were there before:
after the submit handler each field whose trimmed value is empty has the error flag
and exactly one error message in its group, with the text for that field; each
passing field has no error flag and no error message in its group; if a field is
empty no exception is raised and no submission is started; and two pages whose
three inputs have the same values and groups end with the same error flags and the
same error messages in every group. -/
theorem validation_pass_annotations (p : Page)
    (form nameInput emailInput messageInput : Element)
    (hf : p.contactForm = some form)
    (hn : p.getElementById .name = some nameInput)
    (he : p.getElementById .email = some emailInput)
    (hm : p.getElementById .message = some messageInput)
    (hne : nameInput.parentElement ≠ emailInput.parentElement)
    (hnm : nameInput.parentElement ≠ messageInput.parentElement)
    (hem : emailInput.parentElement ≠ messageInput.parentElement) :
    (trim nameInput.value = [] →
      hasError (submitHandler p).page .name = true ∧
      (submitHandler p).page.errorMessages nameInput.parentElement =
        [str "Please enter your name"]) ∧
    (trim emailInput.value = [] →
      hasError (submitHandler p).page .email = true ∧
      (submitHandler p).page.errorMessages emailInput.parentElement =
        [str "Please enter your email"]) ∧
    (trim messageInput.value = [] →
      hasError (submitHandler p).page .message = true ∧
      (submitHandler p).page.errorMessages messageInput.parentElement =
        [str "Please enter your message"]) ∧
    (trim nameInput.value ≠ [] →
      hasError (submitHandler p).page .name = false ∧
      (submitHandler p).page.errorMessages nameInput.parentElement = []) ∧
    (trim emailInput.value ≠ [] → isValidEmail emailInput.value = true →
      hasError (submitHandler p).page .email = false ∧
      (submitHandler p).page.errorMessages emailInput.parentElement = []) ∧
    (trim messageInput.value ≠ [] →
      hasError (submitHandler p).page .message = false ∧
      (submitHandler p).page.errorMessages messageInput.parentElement = []) ∧
    (trim nameInput.value = [] ∨ trim emailInput.value = [] ∨ trim messageInput.value = [] →
      (submitHandler p).fault = none ∧ (submitHandler p).page.timers = p.timers ∧
      (submitHandler p).page.submitButton = p.submitButton) ∧
    (∀ (p2 : Page) (form2 nameInput2 emailInput2 messageInput2 : Element),
      p2.contactForm = some form2 →
      p2.getElementById .name = some nameInput2 →
      p2.getElementById .email = some emailInput2 →
      p2.getElementById .message = some messageInput2 →
      nameInput2.value = nameInput.value →
      emailInput2.value = emailInput.value →
      messageInput2.value = messageInput.value →
      nameInput2.parentElement = nameInput.parentElement →
      emailInput2.parentElement = emailInput.parentElement →
      messageInput2.parentElement = messageInput.parentElement →
      (submitHandler p2).page.errorMessages = (submitHandler p).page.errorMessages ∧
      hasError (submitHandler p2).page .name = hasError (submitHandler p).page .name ∧
      hasError (submitHandler p2).page .email = hasError (submitHandler p).page .email ∧
      hasError (submitHandler p2).page .message =
        hasError (submitHandler p).page .message) := by
  obtain ⟨a1, a2, a3, a4⟩ :=
    submitHandler_annotations p form nameInput emailInput messageInput hf hn he hm
  have hen := hne.symm
  have hmn := hnm.symm
  have hme := hem.symm
  refine ⟨?_, ?_, ?_, ?_, ?_, ?_, ?_, ?_⟩
  · intro h
    rw [a1, a4]
    simp [nameErrors, h, hne, hnm]
  · intro h
    rw [a2, a4]
    simp [emailErrors, h, hem]
  · intro h
    rw [a3, a4]
    simp [messageErrors, h]
  · intro h
    rw [a1, a4]
    simp [nameErrors, h, hne, hnm]
  · intro h hv
    rw [a2, a4]
    simp [emailErrors, h, hv, hem]
  · intro h
    rw [a3, a4]
    simp [messageErrors, h]
  · intro h
    apply submitHandler_rejected p form nameInput emailInput messageInput hf hn he hm
    cases hv : (validateForm p).2 with
    | false => rfl
    | true =>
      have := (validateForm_valid_iff p nameInput emailInput messageInput hn he hm).1 hv
      tauto
  · intro p2 form2 n2 e2 m2 hf2 hn2 he2 hm2 v1 v2 v3 g1 g2 g3
    obtain ⟨b1, b2, b3, b4⟩ := submitHandler_annotations p2 form2 n2 e2 m2 hf2 hn2 he2 hm2
    rw [a1, a2, a3, a4, b1, b2, b3, b4, v1, v2, v3, g1, g2, g3]
    exact ⟨rfl, rfl, rfl, rfl⟩

/-- C9: pending timers are never cancelled. From an idle page at time 0 with the
form, valid values, an enabled submit button and a status region, take the trace:
submit; the success timer fires at 1000 ms and re-enables the button; at a time `t`
with 1000 < t < 5000 the user fills the fields in again and submits; the second
success timer fires at t + 1000 and the status region shows the thank-you message;
then the clear timer of the first submission fires at 6000 ms and empties the status
region, less than 5000 ms after the second message appeared, while the clear timer
of the second submission is still pending. -/
theorem stale_clear_empties_newer_message (p : Page)
    (form nameInput emailInput messageInput submitButton formStatus : Element)
    (hf : p.contactForm = some form)
    (hn : p.getElementById .name = some nameInput)
    (he : p.getElementById .email = some emailInput)
    (hm : p.getElementById .message = some messageInput)
    (hb : p.submitButton = some submitButton)
    (hs : p.formStatus = some formStatus)
    (hidle : p.timers = [])
    (hnow : p.now = 0)
    (henabled : submitButton.disabled = false)
    (hname : trim nameInput.value ≠ [])
    (hemail : trim emailInput.value ≠ [] ∧ isValidEmail emailInput.value = true)
    (hmessage : trim messageInput.value ≠ [])
    (t : Nat) (ht1 : 1000 < t) (ht2 : t < 5000) :
    (step p .submit).now = 0 ∧
    (run p [.submit, .timeout]).now = 1000 ∧
    (run p [.submit, .timeout]).submitButton = some submitButton ∧
    (run p [.submit, .timeout, .waitUntil t, .input .name nameInput.value,
      .input .email emailInput.value, .input .message messageInput.value, .submit]).now = t ∧
    (run p [.submit, .timeout, .waitUntil t, .input .name nameInput.value,
      .input .email emailInput.value, .input .message messageInput.value, .submit]).timers =
        [⟨6000, .clear⟩, ⟨t + 1000, .success submitButton.textContent⟩] ∧
    (run p [.submit, .timeout, .waitUntil t, .input .name nameInput.value,
      .input .email emailInput.value, .input .message messageInput.value, .submit,
      .timeout]).now = t + 1000 ∧
    statusText (run p [.submit, .timeout, .waitUntil t, .input .name nameInput.value,
      .input .email emailInput.value, .input .message messageInput.value, .submit,
      .timeout]) = thankYou ∧
    (run p [.submit, .timeout, .waitUntil t, .input .name nameInput.value,
      .input .email emailInput.value, .input .message messageInput.value, .submit,
      .timeout, .timeout]).now = 6000 ∧
    statusText (run p [.submit, .timeout, .waitUntil t, .input .name nameInput.value,
      .input .email emailInput.value, .input .message messageInput.value, .submit,
      .timeout, .timeout]) = [] ∧
    (run p [.submit, .timeout, .waitUntil t, .input .name nameInput.value,
      .input .email emailInput.value, .input .message messageInput.value, .submit,
      .timeout, .timeout]).timers = [⟨t + 1000 + 5000, .clear⟩] ∧
    6000 - (t + 1000) < 5000 := by
  obtain ⟨⟨a0, -⟩, a1, a2, a3, a4, a5, ⟨n2, a6⟩, ⟨e2, a7⟩, ⟨m2, a8⟩⟩ :=
    submit_then_success p form nameInput emailInput messageInput submitButton formStatus
      hf hn he hm hb hs henabled hname hemail hmessage (by rw [hidle]; rfl)
  have a1' : (run p [.submit, .timeout]).now = 1000 := by rw [a1, hnow]
  have a4' : (run p [.submit, .timeout]).timers = [⟨6000, .clear⟩] := by
    rw [a4, hidle, hnow]; rfl
  have hw : step (run p [.submit, .timeout]) (.waitUntil t) =
      { run p [.submit, .timeout] with now := t } := by
    simp only [step, a1', a4']
    rw [if_pos]
    refine ⟨by omega, ?_⟩
    intro timer hmem
    simp only [List.mem_singleton] at hmem
    subst hmem
    show t ≤ 6000
    omega
  obtain ⟨f1, f2, f3, f4⟩ := fill_in { run p [.submit, .timeout] with now := t } n2 e2 m2
    nameInput.value emailInput.value messageInput.value a6 a7 a8
  have hnw : (run { run p [.submit, .timeout] with now := t }
      [.input .name nameInput.value, .input .email emailInput.value,
        .input .message messageInput.value]).now = t := f4.2.2.2.2.2.2.2.2.2.1
  obtain ⟨r1, r2, r3, r4, r5, r6, r7⟩ := resubmit_before_clear
    (run { run p [.submit, .timeout] with now := t }
      [.input .name nameInput.value, .input .email emailInput.value,
        .input .message messageInput.value])
    form { n2 with value := nameInput.value } { e2 with value := emailInput.value }
    { m2 with value := messageInput.value } submitButton
    { formStatus with textContent := thankYou, classList := ⟨["form-status", "success"]⟩ }
    (f4.2.2.2.2.1.trans a5) f1 f2 f3 (f4.2.2.2.2.2.1.trans a3) (f4.2.2.2.2.2.2.1.trans a2)
    henabled hname hemail hmessage 6000 (f4.2.2.2.2.2.2.2.2.1.trans a4')
    (by rw [hnw]; omega) (by rw [hnw]; omega)
  rw [hnw] at r1 r2 r3 r7
  rw [← hw] at r1 r2 r3 r4 r5 r6 r7
  exact ⟨by rw [a0, hnow], a1', a3, r1, r2, r3, r4, r5, r6, r7, by omega⟩

/-- Counterexample for C8: with the toggle button in the page and the navigation
list missing, a click on the toggle ends in a `TypeError` on the missing list, and
the header plays no part in it. -/
theorem toggle_click_faults_without_navList :
    pageWithoutNavList.menuToggle ≠ none ∧ pageWithoutNavList.navList = none ∧
    pageWithoutNavList.header ≠ none ∧
    (menuToggleClick pageWithoutNavList).fault = some (.nullProperty .navList) := by
  refine ⟨?_, rfl, ?_, rfl⟩
  · simp [pageWithoutNavList, samplePage]
  · simp [pageWithoutNavList, samplePage]

/-- C8 (amended): with every lookup optional, for every page: initialisation raises
no exception; a toggle click raises one exactly when the toggle button exists and
the navigation list is missing; a link click with an `href` that starts with `#`
and finds its target raises one on a missing element exactly when the navigation
list is missing, or the menu is open and the toggle button is missing, or the header
is missing, and a link whose target is missing is ignored; a form submit raises one
exactly when the form exists and the name, email or message input is missing, or the
form is valid and the submit button is missing; a missing form or subject input is
a silent no-op; with the status region missing the success callback falls back to
the alert and the clear callback does nothing. -/
theorem missing_element_faults (p : Page) :
    (∀ year, (init p year).fault = none) ∧
    ((menuToggleClick p).fault =
      if p.menuToggle ≠ none ∧ p.navList = none then some (.nullProperty .navList)
      else none) ∧
    (∀ href, (navLinkClick p href).fault =
      match href with
      | none => some .nullHref
      | some targetId =>
        if targetId.head? = some 0x23 then
          match p.querySelector targetId with
          | .syntaxError => some .syntaxError
          | .null => none
          | .element _ =>
            match p.navList with
            | none => some (.nullProperty .navList)
            | some navList =>
              if navList.classList.contains "nav__list--active" = true ∧ p.menuToggle = none then
                some (.nullProperty .menuToggle)
              else if p.header = none then some (.nullProperty .header)
              else none
        else none) ∧
    ((submitHandler p).fault =
      if p.contactForm = none then none
      else if p.getElementById .name = none then some (.nullProperty .nameInput)
      else if p.getElementById .email = none then some (.nullProperty .emailInput)
      else if p.getElementById .message = none then some (.nullProperty .messageInput)
      else if (validateForm p).2 = true ∧ p.submitButton = none then
        some (.nullProperty .submitButton)
      else none) ∧
    (p.contactForm = none → (submitHandler p).page = p) ∧
    (p.formStatus = none →
      (∀ originalButtonText, (successCallback p originalButtonText).alerts =
        p.alerts ++ [thankYou]) ∧
      clearCallback p = p) ∧
    (p.formStatus ≠ none →
      ∀ originalButtonText, (successCallback p originalButtonText).alerts = p.alerts) := by
  refine ⟨?_, ?_, navLinkClick_fault p, submitHandler_fault p, ?_, ?_, ?_⟩
  · intro year
    unfold init
    split <;> rfl
  · unfold menuToggleClick
    cases p.menuToggle with
    | none => simp
    | some menuToggle => cases p.navList <;> simp
  · intro h
    simp [submitHandler, h]
  · intro h
    refine ⟨fun l => ?_, ?_⟩
    · simp [successCallback, resetForm, h]
    · simp [clearCallback, h]
  · intro h l
    cases hs : p.formStatus with
    | none => exact absurd hs h
    | some formStatus => simp [successCallback, resetForm, hs]

/-- Witness for C2: the sample page is valid and its submit schedules the success timer. -/
theorem submit_valid_iff_three_checks_witness :
    samplePage.contactForm = some (sampleElement ["contact__form"] [] [] 0) ∧
    samplePage.getElementById .name = some (sampleInput .name) ∧
    (validateForm samplePage).2 = true ∧
    (submitHandler samplePage).page.timers = [⟨1000, .success (str "Send Message")⟩] :=
  have h := submit_valid_iff_three_checks samplePage (sampleElement ["contact__form"] [] [] 0)
    (sampleInput .name) (sampleInput .email) (sampleInput .message)
    (sampleElement ["btn"] (str "Send Message") [] 5) rfl rfl rfl rfl rfl
  have hv : (validateForm samplePage).2 = true :=
    h.1.2 ⟨by decide, ⟨by decide, by decide⟩, by decide⟩
  ⟨rfl, rfl, hv, h.2.1.2 hv⟩

/-- Witness for C3: on the stale page the blank name is flagged with its one message
and the message field, which passes, loses its flag and its message. -/
theorem validation_pass_annotations_witness :
    stalePage.errorMessages 1 = [str "Please enter your name", str "stale"] ∧
    hasError stalePage .message = true ∧
    (submitHandler stalePage).page.errorMessages 1 = [str "Please enter your name"] ∧
    hasError (submitHandler stalePage).page .message = false ∧
    (submitHandler stalePage).page.errorMessages 4 = [] :=
  have h := validation_pass_annotations stalePage (sampleElement ["contact__form"] [] [] 0)
    (sampleElement ["form-input", "error"] [] (str "  ") 1)
    (sampleElement ["form-input"] [] (str " a@b.com") 2)
    (sampleElement ["form-textarea", "error"] [] (str "hi") 4)
    rfl rfl rfl rfl (by decide) (by decide) (by decide)
  ⟨rfl, by decide, (h.1 (by decide)).2, (h.2.2.2.2.2.1 (by decide)).1,
    (h.2.2.2.2.2.1 (by decide)).2⟩

/-- Witness for C4: two toggle clicks on the sample page. -/
theorem menuToggle_click_involution_witness :
    samplePage.menuToggle = some (sampleElement ["menu-toggle"] [] [] 0) ∧
    samplePage.navList = some (sampleElement ["nav__list"] [] [] 0) ∧
    navListActive (step samplePage .toggleClick) = true ∧
    navListActive (run samplePage [.toggleClick, .toggleClick]) = false :=
  have h := menuToggle_click_involution samplePage (sampleElement ["menu-toggle"] [] [] 0)
    (sampleElement ["nav__list"] [] [] 0) rfl rfl
  ⟨rfl, rfl, h.2.1, h.2.2.2.1⟩

/-- Witness for C5: the flags of the open menu agree, and still do after a toggle
click and a click on the link to `#about`. -/
theorem menu_flags_stay_in_agreement_witness :
    navListActive openMenuPage = menuToggleActive openMenuPage ∧
    navListActive (run openMenuPage [.toggleClick, .linkClick (some (str "#about"))]) =
      menuToggleActive (run openMenuPage [.toggleClick, .linkClick (some (str "#about"))]) ∧
    navListActive (step openMenuPage (.linkClick (some (str "#about")))) = false :=
  have h := menu_flags_stay_in_agreement openMenuPage (by decide)
  ⟨by decide, h.1 _, (h.2 (str "#about") (sampleElement ["about"] [] [] 0)
    (by decide) (by decide) rfl).1⟩

/-- Witness for C9: the second submit at 3000 ms; its message, shown at 4000 ms, is
emptied at 6000 ms. -/
theorem stale_clear_empties_newer_message_witness :
    statusText (run samplePage [.submit, .timeout, .waitUntil 3000, .input .name (str "A"),
      .input .email (str "a@b.com"), .input .message (str "hi"), .submit, .timeout]) =
      thankYou ∧
    (run samplePage [.submit, .timeout, .waitUntil 3000, .input .name (str "A"),
      .input .email (str "a@b.com"), .input .message (str "hi"), .submit, .timeout]).now =
      4000 ∧
    statusText (run samplePage [.submit, .timeout, .waitUntil 3000, .input .name (str "A"),
      .input .email (str "a@b.com"), .input .message (str "hi"), .submit, .timeout,
      .timeout]) = [] ∧
    (run samplePage [.submit, .timeout, .waitUntil 3000, .input .name (str "A"),
      .input .email (str "a@b.com"), .input .message (str "hi"), .submit, .timeout,
      .timeout]).now = 6000 :=
  have h := stale_clear_empties_newer_message samplePage
    (sampleElement ["contact__form"] [] [] 0)
    (sampleInput .name) (sampleInput .email) (sampleInput .message)
    (sampleElement ["btn"] (str "Send Message") [] 5)
    (sampleElement ["form-status"] [] [] 5) rfl rfl rfl rfl rfl rfl rfl rfl rfl
    (by decide) ⟨by decide, by decide⟩ (by decide) 3000 (by decide) (by decide)
  ⟨h.2.2.2.2.2.2.1, h.2.2.2.2.2.1, h.2.2.2.2.2.2.2.2.1, h.2.2.2.2.2.2.2.1⟩

/-- Witness for C8: the sample page without its status region falls back to the alert. -/
theorem missing_element_faults_witness :
    (submitHandler { samplePage with contactForm := none }).fault = none ∧
    (successCallback { samplePage with formStatus := none } (str "Send Message")).alerts =
      [thankYou] :=
  ⟨((missing_element_faults { samplePage with contactForm := none }).2.2.2.1).trans rfl,
    ((missing_element_faults { samplePage with formStatus := none }).2.2.2.2.2.1 rfl).1 _⟩

end Webclase
